import Mathlib

/-
Shallow embedding of the authorization and timestamp-normalization core of
`lib/execution_engine2/SDKMethodRunner.py`.

Modelling conventions:
- Python exceptions are embedded as `Except PyError _` results.  Reading a
  local variable that was never assigned raises `UnboundLocalError` in Python;
  this is the `PyError.unboundLocal` constructor.
- The two caches created in `SDKMethodRunner.__init__` (`job_permission_cache`
  and `roles_cache`) are association lists from user id to `JobPermissions`.
- External collaborators (`ee2_cache._get_job_with_permission`, `dateutil`
  parsing, `datetime.fromtimestamp` validity, `time.time()`) are not in the
  source tree; they appear as explicit function parameters or record fields,
  so every embedded function stays a pure, executable definition.
- Numeric timestamp values are modelled as exact rationals; the claims under
  study only involve values on which Python float arithmetic is exact.
-/

set_option autoImplicit false
set_option linter.unusedVariables false

namespace EE2

/-- The `JobPermissions` enum of SDKMethodRunner.py (READ="r", WRITE="w", NONE="n"). -/
inductive JobPermissions
  | READ
  | WRITE
  | NONE
  deriving DecidableEq, Repr

/-- Python exceptions observable from the embedded code paths. -/
inductive PyError
  | valueError (msg : String)
  | exception (msg : String)
  | unboundLocal (name : String)
  deriving DecidableEq, Repr

/-- A permission cache: user id to permission level, as stored by the code. -/
abbrev Cache := List (String × JobPermissions)

/-- The slice of `SDKMethodRunner` state the embedded methods touch:
the caller id, the two caches built in `__init__` (lines 80-89), and the
behaviour of `_test_job_permission_with_cache` (which delegates to the
external `ee2_cache._get_job_with_permission`), modelled as a function from
job id and required permission to success or a raised error. -/
structure SDKMethodRunner where
  user_id : String
  job_permission_cache : Cache
  roles_cache : Cache
  test_perm : String → JobPermissions → Except PyError Unit

/-- Embedding of `SDKMethodRunner.get_admin_permission` (lines 327-339).
The Python body assigns the local `permission` only when `self.user_id` is a
key of `self.job_permission_cache` (note: NOT `self.roles_cache`); on a cache
miss the READ/WRITE comparisons read the never-assigned local and raise
`UnboundLocalError`.  A requested permission that is neither READ nor WRITE
raises the generic "Programming Error" exception before any comparison. -/
def get_admin_permission (s : SDKMethodRunner) (requested_permission : JobPermissions) :
    Except PyError Bool :=
  let permission? : Option JobPermissions := s.job_permission_cache.lookup s.user_id
  match requested_permission with
  | JobPermissions.READ =>
    match permission? with
    | some p => Except.ok (p == JobPermissions.READ || p == JobPermissions.WRITE)
    | none => Except.error (PyError.unboundLocal "permission")
  | JobPermissions.WRITE =>
    match permission? with
    | some p => Except.ok (p == JobPermissions.WRITE)
    | none => Except.error (PyError.unboundLocal "permission")
  | JobPermissions.NONE =>
    Except.error (PyError.exception "Programming Error! Something went wrong here.")

/-- The delegated calls made by the embedded endpoint methods, recorded as
data so the theorems can compare exactly what is forwarded downstream. -/
inductive DelegatedCall
  | checkJobCanceled (job_id : String) (as_admin : Bool)
  | checkJob (job_id : String) (check_permission : Option Bool)
      (exclude_fields : Option (List String))
  | updateJobStatus (job_id : String) (status : String)
  deriving DecidableEq, Repr

/-- Embedding of `SDKMethodRunner.check_job_canceled` (lines 309-320): when
`as_admin` is True it requires `get_admin_permission(READ)` and raises an
error naming the READ level on refusal; otherwise (and on success) it
delegates to `JobsStatus.check_job_canceled`, forwarding `as_admin`. -/
def check_job_canceled (s : SDKMethodRunner) (job_id : String) (as_admin : Bool) :
    Except PyError DelegatedCall :=
  if as_admin then
    match get_admin_permission s JobPermissions.READ with
    | Except.error e => Except.error e
    | Except.ok true => Except.ok (DelegatedCall.checkJobCanceled job_id as_admin)
    | Except.ok false => Except.error (PyError.exception
        "You are not permitted to cancel this job. Required permission=JobPermissions.READ")
  else
    Except.ok (DelegatedCall.checkJobCanceled job_id as_admin)

/-- Embedding of `SDKMethodRunner.check_job` (lines 253-261): the `as_admin`
argument is accepted but the delegated `JobsStatus.check_job` call is built
only from `job_id`, `check_permission` and `exclude_fields`. -/
def check_job (s : SDKMethodRunner) (job_id : String) (check_permission : Option Bool)
    (exclude_fields : Option (List String)) (as_admin : Bool) : DelegatedCall :=
  DelegatedCall.checkJob job_id check_permission exclude_fields

/-- Embedding of `SDKMethodRunner.update_job_status` (lines 302-304): the
`as_admin` argument is accepted but not forwarded. -/
def update_job_status (s : SDKMethodRunner) (job_id : String) (status : String)
    (as_admin : Option Bool) : DelegatedCall :=
  DelegatedCall.updateJobStatus job_id status

/-- Embedding of the `allow_job_read` decorator (lines 169-178): the wrapped
call first requires `job_id` in the keyword arguments (absent or None raises
ValueError), then runs `_test_job_permission_with_cache(job_id, READ)`, and
only then invokes the wrapped function. -/
def allow_job_read {α : Type} (func : SDKMethodRunner → Option String → Except PyError α)
    (s : SDKMethodRunner) (job_id : Option String) : Except PyError α :=
  match job_id with
  | none => Except.error (PyError.valueError "Please provide valid job_id")
  | some jid =>
    match s.test_perm jid JobPermissions.READ with
    | Except.error e => Except.error e
    | Except.ok _ => func s job_id

/-- Embedding of the `allow_job_write` decorator (lines 180-189), identical to
`allow_job_read` except that WRITE permission is tested. -/
def allow_job_write {α : Type} (func : SDKMethodRunner → Option String → Except PyError α)
    (s : SDKMethodRunner) (job_id : Option String) : Except PyError α :=
  match job_id with
  | none => Except.error (PyError.valueError "Please provide valid job_id")
  | some jid =>
    match s.test_perm jid JobPermissions.WRITE with
    | Except.error e => Except.error e
    | Except.ok _ => func s job_id

/-- The runtime type of a value handed to `_check_and_convert_time`.  The
Python `isinstance` dispatch order is `str`, then `int`, then `datetime`;
crucially, `bool` is a subtype of `int` in Python, so a boolean input takes
the `isinstance(time_input, int)` branch.  A `float` input matches none of
the branches and flows unchanged into the `datetime.fromtimestamp` check; a
`None` input makes `datetime.fromtimestamp` raise. -/
inductive TimeInput
  | str (s : String)
  | int (n : Int)
  | bool (b : Bool)
  | datetime (ts : ℚ)
  | float (x : ℚ)
  | noneVal
  deriving DecidableEq

/-- Characters of a string with the first "." removed, mirroring
`time_input.replace(".", "", 1)`. -/
def removeFirstDot : List Char → List Char
  | [] => []
  | c :: cs => if c == '.' then cs else c :: removeFirstDot cs

/-- Mirrors `time_input.replace(".", "", 1).isdigit()`: after dropping at
most one ".", the remainder is nonempty and all digits.  (Python `isdigit`
also accepts some non-ASCII digit characters; the inputs under study are
ASCII.) -/
def pyIsNumericString (s : String) : Bool :=
  let r := removeFirstDot s.data
  !r.isEmpty && r.all Char.isDigit

/-- Mirrors the membership test `"." in time_input`. -/
def containsDot (s : String) : Bool :=
  s.data.any (fun c => c == '.')

/-- Value of a digit sequence, mirroring Python `int` on a digit string. -/
def digitsToNat (cs : List Char) : Nat :=
  cs.foldl (fun acc c => acc * 10 + (c.toNat - 48)) 0

/-- The digits before the first dot. -/
def takeUntilDot : List Char → List Char
  | [] => []
  | c :: cs => if c == '.' then [] else c :: takeUntilDot cs

/-- The characters after the first dot. -/
def dropThroughDot : List Char → List Char
  | [] => []
  | c :: cs => if c == '.' then cs else dropThroughDot cs

/-- Mirrors Python `float(s)` on a numeric string holding exactly one dot
(the only shape reaching that call, by the `pyIsNumericString` guard and
the `containsDot` test), as an exact rational. -/
def parseFracStr (s : String) : ℚ :=
  let w := takeUntilDot s.data
  let f := dropThroughDot s.data
  (digitsToNat w : ℚ) + (digitsToNat f : ℚ) / ((10 : ℚ) ^ f.length)

/-- Mirrors Python `int(s)` on an all-digits string. -/
def parseIntStr (s : String) : Nat :=
  digitsToNat s.data

/-- The conversion attempted inside the `try` block of
`_check_and_convert_time` (lines 364-383), before the
`datetime.fromtimestamp` validity check.  `parseDatetimeStr` stands for
`dateutil.parser.parse(s).timestamp()` (an external library), with `none`
meaning that call raised.  A `none` result overall means the `try` block
raised while `time_input` still held its original value. -/
def convertStep (parseDatetimeStr : String → Option ℚ) : TimeInput → Option ℚ
  | TimeInput.str s =>
    if pyIsNumericString s then
      some (if containsDot s then parseFracStr s else (parseIntStr s : ℚ) / 1000)
    else
      parseDatetimeStr s
  | TimeInput.int n => some ((n : ℚ) / 1000)
  | TimeInput.bool b => some ((if b then 1 else 0 : ℚ) / 1000)
  | TimeInput.datetime ts => some ts
  | TimeInput.float x => some x
  | TimeInput.noneVal => none

/-- Rendering of the rebound `time_input` float in the failure message, a
stand-in for Python `str(float)`; it is injective, which is all the error
message is used for. -/
def ratRepr (q : ℚ) : String :=
  if q.den = 1 then toString q.num ++ ".0" else toString q.num ++ "/" ++ toString q.den

/-- Rendering of an unconverted `time_input` in the failure message (a string
formats verbatim under Python `str.format`). -/
def pyFormatInput : TimeInput → String
  | TimeInput.str s => s
  | TimeInput.int n => toString n
  | TimeInput.bool b => if b then "True" else "False"
  | TimeInput.datetime ts => "datetime(" ++ ratRepr ts ++ ")"
  | TimeInput.float x => ratRepr x
  | TimeInput.noneVal => "None"

/-- Embedding of the static method `_check_and_convert_time` (lines 358-395).
`fromtimestampOk` stands for whether `datetime.fromtimestamp` accepts the
converted value (platform range of representable timestamps); `nowTime`
stands for `time.time()`.  On any failure inside the `try` block the method
either returns the current time (when `assign_default_time`) or raises a
ValueError formatting the current value of `time_input` — the original input
when the conversion itself raised, the already-converted number when only
the `fromtimestamp` check failed. -/
def checkAndConvertTime (parseDatetimeStr : String → Option ℚ)
    (fromtimestampOk : ℚ → Bool) (nowTime : ℚ)
    (time_input : TimeInput) (assign_default_time : Bool) : Except PyError ℚ :=
  match convertStep parseDatetimeStr time_input with
  | some t =>
    if fromtimestampOk t then Except.ok t
    else if assign_default_time then Except.ok nowTime
    else Except.error (PyError.valueError
      ("Cannot convert time_input into timestamps: " ++ ratRepr t))
  | none =>
    if assign_default_time then Except.ok nowTime
    else Except.error (PyError.valueError
      ("Cannot convert time_input into timestamps: " ++ pyFormatInput time_input))

/-- C1: the claim says every admin-permission call whose caller is absent from
the admin cache synchronously resolves a permission before the requested-vs-
actual comparison.  The code has no fetch path at all: on a cache miss the
local `permission` is never assigned and the comparison raises
`UnboundLocalError`, for both READ and WRITE requests.  This theorem
evaluates the failing input: caller "alice", every cache empty. -/
theorem admin_permission_cache_miss_raises_unbound :
    get_admin_permission ⟨"alice", [], [], fun _ _ => Except.ok ()⟩ JobPermissions.READ =
      Except.error (PyError.unboundLocal "permission") ∧
    get_admin_permission ⟨"alice", [], [], fun _ _ => Except.ok ()⟩ JobPermissions.WRITE =
      Except.error (PyError.unboundLocal "permission") :=
  ⟨rfl, rfl⟩

/-- C2: the claim says admin lookups read and write only `roles_cache`.  In
the code `get_admin_permission` reads `job_permission_cache`: an entry
inserted only into the job-permission cache is observable through the admin
lookup (first conjunct), while the contents of `roles_cache` never influence
the admin lookup at all (second conjunct: with the job-permission cache
empty, every roles-cache content still yields the cache-miss crash). -/
theorem admin_permission_reads_job_permission_cache :
    get_admin_permission ⟨"alice", [("alice", JobPermissions.WRITE)], [],
        fun _ _ => Except.ok ()⟩ JobPermissions.WRITE = Except.ok true ∧
    (∀ rc : Cache,
      get_admin_permission ⟨"alice", [], rc, fun _ _ => Except.ok ()⟩ JobPermissions.READ =
        Except.error (PyError.unboundLocal "permission")) :=
  ⟨rfl, fun rc => rfl⟩

/-- C3: for every runner state (hence every caller, role and cache content),
requesting the NONE admin level raises the "Programming Error" exception; the
call never returns a boolean. -/
theorem admin_permission_requested_none_always_errors (s : SDKMethodRunner) :
    get_admin_permission s JobPermissions.NONE =
      Except.error (PyError.exception "Programming Error! Something went wrong here.") :=
  rfl

/-- C4: when the caller's permission resolves to `p` (a cache hit), a READ
request returns true exactly when `p` is not NONE, and a WRITE request
returns true exactly when `p` is WRITE. -/
theorem admin_permission_satisfies_relation (s : SDKMethodRunner) (p : JobPermissions)
    (h : s.job_permission_cache.lookup s.user_id = some p) :
    get_admin_permission s JobPermissions.READ =
      Except.ok (decide (p ≠ JobPermissions.NONE)) ∧
    get_admin_permission s JobPermissions.WRITE =
      Except.ok (decide (p = JobPermissions.WRITE)) := by
  cases p <;> simp [get_admin_permission, h]

/-- Witness for C4 at a concrete state: a cached WRITE level satisfies both a
READ and a WRITE request. -/
theorem admin_permission_satisfies_relation_witness :
    get_admin_permission ⟨"a", [("a", JobPermissions.WRITE)], [], fun _ _ => Except.ok ()⟩
        JobPermissions.READ = Except.ok true ∧
    get_admin_permission ⟨"a", [("a", JobPermissions.WRITE)], [], fun _ _ => Except.ok ()⟩
        JobPermissions.WRITE = Except.ok true :=
  admin_permission_satisfies_relation
    ⟨"a", [("a", JobPermissions.WRITE)], [], fun _ _ => Except.ok ()⟩ JobPermissions.WRITE rfl

/-- C5: `check_job_canceled` under `as_admin=true` needs only the READ admin
level: when the admin check returns true it delegates directly to the status
subsystem; when it returns false it raises the error naming the READ level;
and its result never depends on the per-job permission tester
`_test_job_permission_with_cache` (third conjunct). -/
theorem check_job_canceled_admin_requires_read (s : SDKMethodRunner) (job_id : String) :
    (get_admin_permission s JobPermissions.READ = Except.ok true →
      check_job_canceled s job_id true =
        Except.ok (DelegatedCall.checkJobCanceled job_id true)) ∧
    (get_admin_permission s JobPermissions.READ = Except.ok false →
      check_job_canceled s job_id true = Except.error (PyError.exception
        "You are not permitted to cancel this job. Required permission=JobPermissions.READ")) ∧
    (∀ tp, check_job_canceled ⟨s.user_id, s.job_permission_cache, s.roles_cache, tp⟩
        job_id true = check_job_canceled s job_id true) := by
  refine ⟨fun h => ?_, fun h => ?_, fun tp => ?_⟩
  · simp [check_job_canceled, h]
  · simp [check_job_canceled, h]
  · simp [check_job_canceled, get_admin_permission]

/-- Witness for C5: a caller cached at READ level passes the admin gate and
the delegated status check is issued. -/
theorem check_job_canceled_admin_requires_read_witness :
    check_job_canceled ⟨"a", [("a", JobPermissions.READ)], [], fun _ _ => Except.ok ()⟩
        "job1" true = Except.ok (DelegatedCall.checkJobCanceled "job1" true) :=
  (check_job_canceled_admin_requires_read
    ⟨"a", [("a", JobPermissions.READ)], [], fun _ _ => Except.ok ()⟩ "job1").1 rfl

/-- C6: for numeric strings (all digits after removing at most one dot), a
dotted string parses directly as fractional epoch seconds and an undotted
string parses as an integer divided by 1000; an integer input is likewise
divided by 1000 — whenever the converted value passes the representability
check. -/
theorem convert_time_numeric_string_rule (parseDatetimeStr : String → Option ℚ)
    (fromtimestampOk : ℚ → Bool) (nowTime : ℚ) (assign_default_time : Bool) :
    (∀ s : String, pyIsNumericString s = true → containsDot s = true →
      fromtimestampOk (parseFracStr s) = true →
      checkAndConvertTime parseDatetimeStr fromtimestampOk nowTime (TimeInput.str s)
        assign_default_time = Except.ok (parseFracStr s)) ∧
    (∀ s : String, pyIsNumericString s = true → containsDot s = false →
      fromtimestampOk ((parseIntStr s : ℚ) / 1000) = true →
      checkAndConvertTime parseDatetimeStr fromtimestampOk nowTime (TimeInput.str s)
        assign_default_time = Except.ok ((parseIntStr s : ℚ) / 1000)) ∧
    (∀ n : Int, fromtimestampOk ((n : ℚ) / 1000) = true →
      checkAndConvertTime parseDatetimeStr fromtimestampOk nowTime (TimeInput.int n)
        assign_default_time = Except.ok ((n : ℚ) / 1000)) := by
  refine ⟨fun s h1 h2 h3 => ?_, fun s h1 h2 h3 => ?_, fun n h1 => ?_⟩
  · simp [checkAndConvertTime, convertStep, h1, h2, h3]
  · simp [checkAndConvertTime, convertStep, h1, h2, h3]
  · simp [checkAndConvertTime, convertStep, h1]

/-- Witness for C6 at the inputs named by the claim: "1610000000000"
normalizes to 1610000000, "1610000000.0" normalizes to 1610000000, and the
integer 1610000000000 normalizes to 1610000000. -/
theorem convert_time_numeric_string_rule_witness :
    checkAndConvertTime (fun _ => none) (fun _ => true) 0 (TimeInput.str "1610000000000")
      false = Except.ok 1610000000 ∧
    checkAndConvertTime (fun _ => none) (fun _ => true) 0 (TimeInput.str "1610000000.0")
      false = Except.ok 1610000000 ∧
    checkAndConvertTime (fun _ => none) (fun _ => true) 0 (TimeInput.int 1610000000000)
      false = Except.ok 1610000000 := by
  have hint : (parseIntStr "1610000000000" : ℚ) / 1000 = 1610000000 := by
    have h : parseIntStr "1610000000000" = 1610000000000 := by decide
    rw [h]; norm_num
  have hfrac : parseFracStr "1610000000.0" = 1610000000 := by
    have h1 : digitsToNat (takeUntilDot "1610000000.0".data) = 1610000000 := by decide
    have h2 : digitsToNat (dropThroughDot "1610000000.0".data) = 0 := by decide
    have h3 : (dropThroughDot "1610000000.0".data).length = 1 := by decide
    simp only [parseFracStr]
    rw [h1, h2, h3]; norm_num
  have hmil : ((1610000000000 : Int) : ℚ) / 1000 = 1610000000 := by norm_num
  refine ⟨?_, ?_, ?_⟩
  · have h := (convert_time_numeric_string_rule (fun _ => none) (fun _ => true) 0 false).2.1
      "1610000000000" (by decide) (by decide) rfl
    rw [hint] at h
    exact h
  · have h := (convert_time_numeric_string_rule (fun _ => none) (fun _ => true) 0 false).1
      "1610000000.0" (by decide) (by decide) rfl
    rw [hfrac] at h
    exact h
  · have h := (convert_time_numeric_string_rule (fun _ => none) (fun _ => true) 0 false).2.2
      1610000000000 rfl
    rw [hmil] at h
    exact h

/-- C7: when the conversion raises or the representability check fails, the
only two outcomes are: with `assign_default_time` the current wall-clock time
is returned, and without it a ValueError is raised formatting the value
`time_input` held at the failure point (the original input when the parse
itself raised, the converted number when only the representability check
failed). -/
theorem convert_time_failure_outcomes (parseDatetimeStr : String → Option ℚ)
    (fromtimestampOk : ℚ → Bool) (nowTime : ℚ) (time_input : TimeInput)
    (hfail : convertStep parseDatetimeStr time_input = none ∨
      ∃ t, convertStep parseDatetimeStr time_input = some t ∧ fromtimestampOk t = false) :
    checkAndConvertTime parseDatetimeStr fromtimestampOk nowTime time_input true =
      Except.ok nowTime ∧
    (convertStep parseDatetimeStr time_input = none →
      checkAndConvertTime parseDatetimeStr fromtimestampOk nowTime time_input false =
        Except.error (PyError.valueError
          ("Cannot convert time_input into timestamps: " ++ pyFormatInput time_input))) ∧
    (∀ t, convertStep parseDatetimeStr time_input = some t → fromtimestampOk t = false →
      checkAndConvertTime parseDatetimeStr fromtimestampOk nowTime time_input false =
        Except.error (PyError.valueError
          ("Cannot convert time_input into timestamps: " ++ ratRepr t))) := by
  rcases hfail with h | ⟨t, ht, hok⟩
  · refine ⟨by simp [checkAndConvertTime, h], fun h2 => by simp [checkAndConvertTime, h],
      fun u hu hok2 => ?_⟩
    rw [h] at hu
    simp at hu
  · refine ⟨by simp [checkAndConvertTime, ht, hok], fun h2 => ?_, fun u hu hok2 => ?_⟩
    · rw [ht] at h2
      simp at h2
    · rw [ht] at hu
      injection hu with he
      subst he
      simp [checkAndConvertTime, ht, hok]

/-- Witness for C7 at the unparsable string "bad-date" (the dateutil parse
raises, modelled by the parser returning none): with the default flag the
current time 42 is returned, without it the ValueError names the input. -/
theorem convert_time_failure_outcomes_witness :
    checkAndConvertTime (fun _ => none) (fun _ => true) 42 (TimeInput.str "bad-date") true =
      Except.ok 42 ∧
    checkAndConvertTime (fun _ => none) (fun _ => true) 42 (TimeInput.str "bad-date") false =
      Except.error (PyError.valueError
        ("Cannot convert time_input into timestamps: " ++ "bad-date")) := by
  have h := convert_time_failure_outcomes (fun _ => none) (fun _ => true) 42
    (TimeInput.str "bad-date") (Or.inl (by decide))
  exact ⟨h.1, h.2.1 (by decide)⟩

/-- C8 counterexample: the claim says a boolean input is rejected with a
normalization error when no default is requested.  Because Python `bool` is a
subtype of `int`, `True` takes the integer branch and converts to 0.001
seconds: the call returns a value, not an error. -/
theorem convert_time_bool_not_rejected :
    checkAndConvertTime (fun _ => none) (fun _ => true) 0 (TimeInput.bool true) false =
      Except.ok (1 / 1000) := by
  simp [checkAndConvertTime, convertStep]

/-- C8 amended: a boolean input is treated as a Python int (True=1, False=0)
and converted to epoch seconds by dividing by 1000, whenever that value
passes the representability check; it is never rejected. -/
theorem convert_time_bool_as_millis (parseDatetimeStr : String → Option ℚ)
    (fromtimestampOk : ℚ → Bool) (nowTime : ℚ) (assign_default_time : Bool) (b : Bool)
    (h : fromtimestampOk ((if b then 1 else 0 : ℚ) / 1000) = true) :
    checkAndConvertTime parseDatetimeStr fromtimestampOk nowTime (TimeInput.bool b)
      assign_default_time = Except.ok ((if b then 1 else 0 : ℚ) / 1000) := by
  simp [checkAndConvertTime, convertStep, h]

/-- Witness for the amended C8 at input False: the normalizer returns 0/1000
rather than an error. -/
theorem convert_time_bool_as_millis_witness :
    checkAndConvertTime (fun _ => none) (fun _ => true) 0 (TimeInput.bool false) true =
      Except.ok ((if false then 1 else 0 : ℚ) / 1000) :=
  convert_time_bool_as_millis (fun _ => none) (fun _ => true) 0 true false rfl

/-- C9: both decorators reject a call with no `job_id` keyword with the
ValueError, for every runner state (hence every permission tester) and every
wrapped operation — so neither permission resolution nor the wrapped
operation can influence the outcome, and the operation is never invoked. -/
theorem job_gates_require_job_id {α : Type}
    (func : SDKMethodRunner → Option String → Except PyError α) (s : SDKMethodRunner) :
    allow_job_read func s none = Except.error (PyError.valueError "Please provide valid job_id") ∧
    allow_job_write func s none =
      Except.error (PyError.valueError "Please provide valid job_id") :=
  ⟨rfl, rfl⟩

/-- C10: the delegated calls built by `check_job` and `update_job_status` are
identical whatever `as_admin` is; the flag is accepted but never forwarded or
consulted. -/
theorem check_job_update_status_ignore_as_admin (s : SDKMethodRunner) (job_id : String)
    (check_permission : Option Bool) (exclude_fields : Option (List String)) (status : String) :
    check_job s job_id check_permission exclude_fields true =
      check_job s job_id check_permission exclude_fields false ∧
    update_job_status s job_id status (some true) =
      update_job_status s job_id status (some false) ∧
    update_job_status s job_id status none = update_job_status s job_id status (some true) :=
  ⟨rfl, rfl, rfl⟩

end EE2
